import Mathlib

/-!
Shallow embedding of the imgui-example image-viewer/editor:
the `Canvas` component (canvas implementation file), the `Dialog`
component (src/dialog.cpp) and the `Toolbar` flags (src/ui/toolbar.cpp),
together with proofs of the specification's claims about them.

Machine conventions: `GLuint` resource ids are `Nat`; the C++ 32-bit
`float` zoom factor is modelled by `Float32`, an exact embedding of IEEE
binary32 under the two operations the code performs on it (multiply and
divide by `2.0f`), including overflow to infinity and the tie-to-even
rounding at the bottom of the subnormal range; rational viewport
coordinates, on which the code does no arithmetic that rounds, are `ℚ`;
image pixel data is a flat `List Nat` of channel samples; heap ownership of
image buffers is tracked by an allocation id on each `Image` value plus an
explicit event trace emitted by every edit operation.
-/

abbrev GLuint := Nat

/-- A compiled GPU shader program (`Program` wrapper class; its source lives
in the companion OpenGL repo, not in this one).  `id` is the GL handle;
`vertex_ok` / `fragment_ok` record whether each stage compiled. -/
structure Program where
  id : GLuint
  vertex_ok : Bool
  fragment_ok : Bool
deriving Repr, DecidableEq

/-- Modelled from the spec: `Program::has_failed` is not under src/ (only its
callers are).  Per the spec a shader-compilation failure is a failure of the
vertex or the fragment stage, so the program has failed when either stage
failed to compile. -/
def Program.has_failed (p : Program) : Bool :=
  !p.vertex_ok || !p.fragment_ok

/-- `Program program(callback_data[0])`: the lightweight handle the render
callback reconstructs from a bare GL id (no compilation happens). -/
def Program.fromId (i : GLuint) : Program :=
  { id := i, vertex_ok := true, fragment_ok := true }

/-- An in-memory raster buffer (`Image` wrapper class).  `id` is the
allocation identity used to track the free/assign discipline of edit
operations; `pixels` is the flat channel-sample buffer. -/
structure Image where
  id : Nat
  width : Nat
  height : Nat
  n_channels : Nat
  pixels : List Nat
deriving Repr, DecidableEq

/-- Raster content of a file on disk (what `Image(path, ...)` reads). -/
structure ImageData where
  width : Nat
  height : Nat
  n_channels : Nat
  pixels : List Nat
deriving Repr, DecidableEq

/-- The filesystem, as the image loader sees it: a map from path to raster
content.  Loading is external input, so it is a parameter of the model. -/
structure Disk where
  read : String → ImageData

/-- `Image(path, flip)`: load the raster at `path`; `fresh` is the identity
of the newly allocated buffer. -/
def Image.load (disk : Disk) (path : String) (fresh : Nat) : Image :=
  let d := disk.read path
  { id := fresh, width := d.width, height := d.height,
    n_channels := d.n_channels, pixels := d.pixels }

/-- A GPU-resident copy of an image (`Texture2D` wrapper class). -/
structure Texture2D where
  id : GLuint
  image : Image
deriving Repr, DecidableEq

/-- `Texture2D::set_image`: upload a new image to the existing GL texture. -/
def Texture2D.set_image (t : Texture2D) (img : Image) : Texture2D :=
  { t with image := img }

/-- Sum-then-divide over consecutive chunks of `c` channel samples: the mean
of each pixel's channels, in buffer order. -/
def avgChunks (c : Nat) : List Nat → List Nat
  | [] => []
  | x :: xs => (x :: xs.take (c - 1)).sum / c :: avgChunks c (xs.drop (c - 1))
termination_by l => l.length
decreasing_by
  simp only [List.length_cons, List.length_drop]
  omega

/-- Modelled from the spec: `ImageUtils::to_grayscale` is not under src/
(only its callers are).  Per the spec it converts the image to grayscale,
producing a new single-channel image of the same dimensions whose pixel
values are the mean of the source pixel's channels; it is a pure conversion
and does not free its argument.  `fresh` is the new buffer's identity. -/
def ImageUtils.to_grayscale (img : Image) (fresh : Nat) : Image :=
  { id := fresh, width := img.width, height := img.height,
    n_channels := 1, pixels := avgChunks img.n_channels img.pixels }

/-- Modelled from the spec: `ImageUtils::blur` is not under src/ (only its
caller is).  Per the code comment it blurs with a 9x9 averaging filter and
returns a freshly allocated image of the same shape; the filtered pixel
values themselves are not observed by any claim and are carried through
unchanged. -/
def ImageUtils.blur (img : Image) (fresh : Nat) : Image :=
  { img with id := fresh }

/-- The C++ exceptions the embedded code can raise: `std::out_of_range`
from `unordered_map::at`, and `ShaderException` from the constructors. -/
inductive CppException where
  | out_of_range
  | shader_exception
deriving Repr, DecidableEq

/-- `ClickMode` enumeration (mouse constants header). -/
inductive ClickMode where
  | NONE
  | DRAW_CIRCLE
  | DRAW_LINE
deriving Repr, DecidableEq

/-- `HoverMode` enumeration (hover_mode header). -/
inductive HoverMode where
  | NONE
  | IMAGE_SUBSET
  | PIXEL_VALUE
deriving Repr, DecidableEq

/-- The `Mouse` globals consulted/written by the canvas. -/
structure Mouse where
  click_mode : ClickMode
  hover_mode : HoverMode
deriving Repr, DecidableEq

/-- An IEEE-754 binary32 (`float`) value, embedded exactly for the two
operations the code performs on `m_zoom`: `*= 2.0f` and `/= 2.0f` under
the default round-to-nearest, ties-to-even mode.  A finite value is
counted in quanta of `2 ^ (-149)` — the subnormal step — so `1.0f` is
`finite (2 ^ 149)`.  Every representable binary32 value is a point of this
grid; doubling and halving stay on the grid except where IEEE rounds:
doubling overflows to infinity at the top of the normal range, and halving
an odd quantum count (possible only at the bottom of the subnormal range,
where one quantum is one ulp) rounds to the nearest even count. -/
inductive Float32 where
  | finite (quanta : ℤ)
  | pos_inf
  | neg_inf
  | nan
deriving Repr, DecidableEq

/-- Overflow threshold in quanta: `FLT_MAX = 2 ^ 128 − 2 ^ 104`, and under
round-to-nearest-even an exact result whose magnitude reaches the midpoint
`2 ^ 128 − 2 ^ 103` rounds to infinity; scaled by `2 ^ 149` quanta. -/
def f32OverflowQuanta : ℤ := 2 ^ 277 - 2 ^ 252

/-- Round the half-integer `k / 2` to the nearest integer, ties to even. -/
def roundHalfToEven (k : ℤ) : ℤ :=
  if k % 2 = 0 then k / 2
  else if ((k - 1) / 2) % 2 = 0 then (k - 1) / 2 else (k + 1) / 2

/-- `x * 2.0f`: exact on the quanta grid, except that a result at or past
the overflow threshold becomes infinity of the same sign. -/
def Float32.mul2 : Float32 → Float32
  | .finite k =>
      if f32OverflowQuanta ≤ 2 * k then .pos_inf
      else if 2 * k ≤ -f32OverflowQuanta then .neg_inf
      else .finite (2 * k)
  | .pos_inf => .pos_inf
  | .neg_inf => .neg_inf
  | .nan => .nan

/-- `x / 2.0f`: exact whenever the quantum count is even (which holds for
every representable value above the subnormal bottom); an odd count rounds
to the nearest even count, as IEEE does at one-ulp resolution. -/
def Float32.div2 : Float32 → Float32
  | .finite k => .finite (roundHalfToEven k)
  | .pos_inf => .pos_inf
  | .neg_inf => .neg_inf
  | .nan => .nan

/-- The binary32 value `1.0f`, the canvas's initial zoom factor. -/
def f32One : Float32 := .finite (2 ^ 149)

/-- Key lookup in the keyed program collection (`std::unordered_map
<std::string, Program>`), modelled as an association list; `none` is the
case in which `unordered_map::at` throws `std::out_of_range`. -/
def lookupProgram : List (String × Program) → String → Option Program
  | [], _ => none
  | (k, p) :: rest, key => if k = key then some p else lookupProgram rest key

/-- The `Canvas` component state.  The C++ `Program* m_program` points at an
entry of `m_programs`; the pointer is modelled by the key of the entry it
addresses, so that "the pointer refers to a live entry" is exactly
"`lookupProgram m_programs m_program` is `some`". -/
structure Canvas where
  m_image : Image
  m_texture : Texture2D
  m_programs : List (String × Program)
  m_program : String
  m_zoom : Float32
deriving DecidableEq

/-- The three-entry program collection built by the `Canvas` constructor's
member initializer. -/
def mkPrograms (color grayscale monochrome : Program) : List (String × Program) :=
  [("color", color), ("grayscale", grayscale), ("monochrome", monochrome)]

/-- `Canvas::Canvas()`: load the default asset image, build the texture and
the three shader programs, select `"color"`, set zoom 1; then throw
`ShaderException` if the selected program failed to compile.  The compile
outcome of each program is external (GL), so the three `Program` values are
parameters; `fresh` is the loaded image's buffer identity and `tex_id` the
GL texture handle. -/
def Canvas.construct (disk : Disk) (fresh : Nat) (tex_id : GLuint)
    (color grayscale monochrome : Program) : Except CppException Canvas :=
  let img := Image.load disk "./assets/images/nature.png" fresh
  let c : Canvas :=
    { m_image := img,
      m_texture := { id := tex_id, image := img },
      m_programs := mkPrograms color grayscale monochrome,
      m_program := "color",
      m_zoom := f32One }
  match lookupProgram c.m_programs c.m_program with
  | none => .error .out_of_range
  | some p => if p.has_failed then .error .shader_exception else .ok c

/-- `Canvas::set_shader(key)`: `m_program = &m_programs.at(key);`.
`at` throws `std::out_of_range` on a missing key, before the assignment, so
on failure the returned state is the unchanged receiver. -/
def Canvas.set_shader (c : Canvas) (key : String) : Canvas × Option CppException :=
  match lookupProgram c.m_programs key with
  | some _ => ({ c with m_program := key }, none)
  | none => (c, some .out_of_range)

/-- Heap events emitted by the canvas/dialog edit operations on the image
buffer: releasing the buffer with identity `id`, and assigning a buffer
with identity `id` to the `m_image` member. -/
inductive HeapEvent where
  | free_image (id : Nat)
  | assign_image (id : Nat)
deriving Repr, DecidableEq

/-- `Canvas::change_image(path)`: `m_image.free(); m_image = Image(path,
false); m_texture.set_image(m_image);`. -/
def Canvas.change_image (c : Canvas) (disk : Disk) (path_image : String)
    (fresh : Nat) : Canvas × List HeapEvent :=
  let img := Image.load disk path_image fresh
  ({ c with m_image := img, m_texture := c.m_texture.set_image img },
   [.free_image c.m_image.id, .assign_image img.id])

/-- `Canvas::draw_circle()`: draw a circle into an `ImageVector` (Cairo)
copy of the image, save it to `/tmp/image.png`, then `m_image.free();
m_image = Image(path_image_out, false); m_texture.set_image(m_image);` and
reset `Mouse::click_mode` to `NONE`.  The Cairo rasterization is external
(its repo is not under src/): the reloaded raster is whatever the disk
holds at the temporary path after the save. -/
def Canvas.draw_circle (c : Canvas) (disk : Disk) (mouse : Mouse)
    (fresh : Nat) : Canvas × Mouse × List HeapEvent :=
  let path_image_out := "/tmp/image.png"
  let img := Image.load disk path_image_out fresh
  ({ c with m_image := img, m_texture := c.m_texture.set_image img },
   { mouse with click_mode := .NONE },
   [.free_image c.m_image.id, .assign_image img.id])

/-- `Canvas::to_grayscale()`: `m_image = ImageUtils::to_grayscale(m_image);
m_texture.set_image(m_image); m_program = &m_programs.at("monochrome");`.
Note: unlike `change_image`/`draw_circle`, no `m_image.free()` precedes the
assignment. -/
def Canvas.to_grayscale (c : Canvas) (fresh : Nat) : Canvas × List HeapEvent :=
  let img := ImageUtils.to_grayscale c.m_image fresh
  ({ c with m_image := img, m_texture := c.m_texture.set_image img,
            m_program := "monochrome" },
   [.assign_image img.id])

/-- `Canvas::blur()`: `m_image = ImageUtils::blur(m_image);
m_texture.set_image(m_image);`.  As in `to_grayscale`, no free precedes the
assignment. -/
def Canvas.blur (c : Canvas) (fresh : Nat) : Canvas × List HeapEvent :=
  let img := ImageUtils.blur c.m_image fresh
  ({ c with m_image := img, m_texture := c.m_texture.set_image img },
   [.assign_image img.id])

/-- `Canvas::zoom_in()`: `m_zoom *= 2.0f;`. -/
def Canvas.zoom_in (c : Canvas) : Canvas :=
  { c with m_zoom := c.m_zoom.mul2 }

/-- `Canvas::zoom_out()`: `m_zoom /= 2.0f;`. -/
def Canvas.zoom_out (c : Canvas) : Canvas :=
  { c with m_zoom := c.m_zoom.div2 }

/-- `glm::ortho(left, right, bottom, top)`: the standard 4x4 orthographic
projection matrix, over exact rationals. -/
def glmOrtho (l r b t : ℚ) : Matrix (Fin 4) (Fin 4) ℚ :=
  Matrix.of
    ![![2 / (r - l), 0, 0, 0],
      ![0, 2 / (t - b), 0, 0],
      ![0, 0, -1, 0],
      ![-(r + l) / (r - l), -(t + b) / (t - b), 0, 1]]

/-- The GPU draw that `draw_with_custom_shader` issues: which program was
bound (`program.use()`), which texture uniform was passed, and the
`transformation` uniform. -/
structure DrawCall where
  program_used : GLuint
  texture_used : GLuint
  transformation : Matrix (Fin 4) (Fin 4) ℚ

/-- Commands appended to the per-frame `ImDrawList`. -/
inductive DrawCmd where
  | callback_custom_shader
  | callback_reset_render_state
  | image (tex : GLuint) (w h : ℚ)
deriving Repr, DecidableEq

/-- The per-frame rendering state the canvas touches: the process-wide
single-slot static `Canvas::callback_data` (two `GLuint`s) and the frame's
draw command list. -/
structure FrameState where
  callback_data : GLuint × GLuint
  draw_list : List DrawCmd
deriving Repr, DecidableEq

/-- The GL id of the program the `m_program` pointer currently addresses
(`m_program->id`); `0` stands for the dereference of a dangling pointer and
never arises from a reachable state. -/
def Canvas.selected_program_id (c : Canvas) : GLuint :=
  ((lookupProgram c.m_programs c.m_program).map Program.id).getD 0

/-- `Canvas::use_shader()`: `callback_data = { m_program->id, m_texture.id };
draw_list->AddCallback(draw_with_custom_shader, nullptr);` — the two GL ids
are copied into the static slot before the callback is appended. -/
def Canvas.use_shader (c : Canvas) (f : FrameState) : FrameState :=
  { callback_data := (c.selected_program_id, c.m_texture.id),
    draw_list := f.draw_list ++ [.callback_custom_shader] }

/-- `Canvas::unuse_shader()`: append the reset-render-state callback. -/
def Canvas.unuse_shader (f : FrameState) : FrameState :=
  { f with draw_list := f.draw_list ++ [.callback_reset_render_state] }

/-- `Canvas::draw_with_custom_shader(parent_list, cmd)`: reconstruct the
program and texture handles from the two ids in the static slot, compute
`projection2d * view * model` with `projection2d = glm::ortho(0, w, h, 0)`
from the current viewport size and `view = model = identity`, bind the
program and pass the uniforms.  It reads nothing but the slot and the
viewport size. -/
def Canvas.draw_with_custom_shader (callback_data : GLuint × GLuint)
    (display_size : ℚ × ℚ) : DrawCall :=
  let program := Program.fromId callback_data.1
  let texture_id := callback_data.2
  let projection2d := glmOrtho 0 display_size.1 display_size.2 0
  let view : Matrix (Fin 4) (Fin 4) ℚ := 1
  let model : Matrix (Fin 4) (Fin 4) ℚ := 1
  let transformation := projection2d * view * model
  { program_used := program.id, texture_used := texture_id,
    transformation := transformation }

/-- The statics of `Dialog::render_menu` (`open_image`, `quit_app`,
`to_gray`), initialized to `false` on the first call. -/
structure MenuFlags where
  open_image : Bool
  quit_app : Bool
  to_gray : Bool
deriving Repr, DecidableEq

/-- What the GUI library reports to `Dialog::render_menu` during one frame:
whether the file dialog is displayed and confirmed, the chosen path, and
which menu items were clicked this frame (a `MenuItem` click toggles its
bound flag). -/
structure MenuInput where
  display_file_dialog : Bool
  file_dialog_ok : Bool
  file_path : String
  click_open : Bool
  click_quit : Bool
  click_gray : Bool
deriving Repr, DecidableEq

/-- The `Dialog` component state (src/dialog.cpp) together with the
observable window/file-dialog effects its menu logic produces. -/
structure DialogState where
  flags : MenuFlags
  m_image : Image
  m_texture : Texture2D
  m_program : Program
  window_open : Bool
  file_dialog_open : Bool
deriving DecidableEq

/-- `Dialog::Dialog(window)`: load the default asset image, build texture
and the single shader program, then throw `ShaderException` if the program
failed to compile. -/
def Dialog.construct (disk : Disk) (fresh : Nat) (tex_id : GLuint)
    (program : Program) : Except CppException DialogState :=
  let img := Image.load disk "./assets/images/grass_logo.png" fresh
  if program.has_failed then .error .shader_exception
  else .ok
    { flags := { open_image := false, quit_app := false, to_gray := false },
      m_image := img,
      m_texture := { id := tex_id, image := img },
      m_program := program,
      window_open := true,
      file_dialog_open := false }

/-- `Dialog::render_menu()`, one frame.  In source order: (1) if
`open_image` then open the file dialog and clear the flag; (2) if the file
dialog is displayed, on Ok free and replace the image, and close the
dialog; (3) if `to_gray` then convert the image (`ImageUtils::to_gray`,
same model as `to_grayscale`) and clear the flag; (4) if `quit_app` then
close the window — the flag is NOT cleared; (5) render the menu bar, where
each clicked `MenuItem` toggles its bound flag. -/
def Dialog.render_menu (s : DialogState) (inp : MenuInput) (disk : Disk)
    (fresh_open fresh_gray : Nat) : DialogState :=
  let s :=
    if s.flags.open_image then
      { s with file_dialog_open := true,
               flags := { s.flags with open_image := false } }
    else s
  let s :=
    if inp.display_file_dialog then
      if inp.file_dialog_ok then
        let img := Image.load disk inp.file_path fresh_open
        { s with m_image := img, m_texture := s.m_texture.set_image img,
                 file_dialog_open := false }
      else { s with file_dialog_open := false }
    else s
  let s :=
    if s.flags.to_gray then
      let img := ImageUtils.to_grayscale s.m_image fresh_gray
      { s with m_image := img, m_texture := s.m_texture.set_image img,
               flags := { s.flags with to_gray := false } }
    else s
  let s := if s.flags.quit_app then { s with window_open := false } else s
  { s with flags :=
      { open_image := xor s.flags.open_image inp.click_open,
        quit_app := xor s.flags.quit_app inp.click_quit,
        to_gray := xor s.flags.to_gray inp.click_gray } }

/-- One `Canvas` member call, for reasoning about arbitrary call sequences.
The `fresh` arguments are the identities of buffers allocated during the
call. -/
inductive CanvasOp where
  | set_shader (key : String)
  | change_image (path : String) (fresh : Nat)
  | save_image (path : String)
  | to_grayscale (fresh : Nat)
  | blur (fresh : Nat)
  | draw_circle (fresh : Nat)
  | zoom_in
  | zoom_out
deriving Repr, DecidableEq

/-- Effect of one member call on the `Canvas` state.  `save_image` writes
the buffer to disk and leaves the state unchanged; a failed `set_shader`
(`at` throws before the assignment) leaves the state unchanged. -/
def Canvas.step (disk : Disk) (mouse : Mouse) (c : Canvas) : CanvasOp → Canvas
  | .set_shader key => (c.set_shader key).1
  | .change_image path fresh => (c.change_image disk path fresh).1
  | .save_image _ => c
  | .to_grayscale fresh => (c.to_grayscale fresh).1
  | .blur fresh => (c.blur fresh).1
  | .draw_circle fresh => (c.draw_circle disk mouse fresh).1
  | .zoom_in => c.zoom_in
  | .zoom_out => c.zoom_out

/-- Run a sequence of member calls. -/
def Canvas.run (disk : Disk) (mouse : Mouse) (c : Canvas) : List CanvasOp → Canvas
  | [] => c
  | op :: ops => Canvas.run disk mouse (c.step disk mouse op) ops

/-- `true` iff the C++ constructor completed without throwing. -/
def constructionSucceeded {α : Type} : Except CppException α → Bool
  | .ok _ => true
  | .error _ => false

/-- A concrete filesystem: every path holds a 1x1 3-channel raster. -/
def disk0 : Disk :=
  { read := fun _ =>
      { width := 1, height := 1, n_channels := 3, pixels := [10, 20, 30] } }

/-- A concrete successfully compiled program. -/
def prog_color : Program := { id := 1, vertex_ok := true, fragment_ok := true }

/-- A concrete successfully compiled program. -/
def prog_gray : Program := { id := 2, vertex_ok := true, fragment_ok := true }

/-- A concrete successfully compiled program. -/
def prog_mono : Program := { id := 3, vertex_ok := true, fragment_ok := true }

/-- A concrete program whose vertex stage failed to compile. -/
def prog_mono_bad : Program := { id := 3, vertex_ok := false, fragment_ok := true }

/-- Concrete mouse globals: a circle-draw click is pending. -/
def mouse0 : Mouse := { click_mode := .DRAW_CIRCLE, hover_mode := .NONE }

/-- The concrete canvas produced by a successful construction over `disk0`
with the three programs above. -/
def canvas0 : Canvas :=
  { m_image := Image.load disk0 "./assets/images/nature.png" 0,
    m_texture := { id := 7, image := Image.load disk0 "./assets/images/nature.png" 0 },
    m_programs := mkPrograms prog_color prog_gray prog_mono,
    m_program := "color",
    m_zoom := f32One }

/-- C1: for every shader key not present in the canvas's program collection,
`Canvas::set_shader` with that key raises `std::out_of_range` (from
`unordered_map::at`) rather than silently falling back to another program,
and the canvas state — in particular the selected program — is unchanged. -/
theorem C1_set_shader_missing_key (c : Canvas) (key : String)
    (h : lookupProgram c.m_programs key = none) :
    c.set_shader key = (c, some CppException.out_of_range) := by
  simp [Canvas.set_shader, h]

theorem C1_set_shader_missing_key_witness :
    lookupProgram canvas0.m_programs "basic" = none ∧
    canvas0.set_shader "basic" = (canvas0, some CppException.out_of_range) :=
  ⟨by decide, C1_set_shader_missing_key canvas0 "basic" (by decide)⟩

/-- C2 counterexample: the Canvas constructor compiles three programs but
checks only the selected `"color"` one, so a monochrome program whose
vertex stage failed to compile does not make construction throw — the
constructor returns normally. -/
theorem C2_unchecked_failure_counterexample :
    prog_mono_bad.has_failed = true ∧
    constructionSucceeded
      (Canvas.construct disk0 0 7 prog_color prog_gray prog_mono_bad) = true := by
  exact ⟨rfl, rfl⟩

/-- C2 amended: construction throws `ShaderException` exactly when the one
program the constructor checks failed to compile — for `Canvas` the
initially selected `"color"` program (grayscale/monochrome failures are not
checked), for `Dialog` its single program.  There is no retry and no
fallback shader: the other outcome is normal completion. -/
theorem C2_construction_throw_iff_checked_program_failed
    (disk : Disk) (fresh : Nat) (tex_id : GLuint)
    (color grayscale monochrome : Program)
    (dfresh : Nat) (dtex : GLuint) (dprog : Program) :
    constructionSucceeded
        (Canvas.construct disk fresh tex_id color grayscale monochrome) =
      !color.has_failed ∧
    constructionSucceeded (Dialog.construct disk dfresh dtex dprog) =
      !dprog.has_failed := by
  constructor
  · cases h : color.has_failed <;>
      simp [Canvas.construct, mkPrograms, lookupProgram, constructionSucceeded, h]
  · cases h : dprog.has_failed <;>
      simp [Dialog.construct, constructionSucceeded, h]

/-- C3 counterexample: `Canvas::to_grayscale` replaces the image with a new
instance but never frees the previous one — its heap trace holds the
assignment of the fresh buffer and no release of the old buffer. -/
theorem C3_grayscale_no_free_counterexample :
    (canvas0.to_grayscale 9).2 = [HeapEvent.assign_image 9] ∧
    HeapEvent.free_image canvas0.m_image.id ∉ (canvas0.to_grayscale 9).2 ∧
    (canvas0.to_grayscale 9).1.m_image.id ≠ canvas0.m_image.id := by
  decide

/-- C3 amended: every edit operation replaces the in-memory image wholesale
by a new instance (the resulting `m_image` carries the fresh allocation
identity), but only `change_image` and `draw_circle` release the previous
instance before the assignment; `to_grayscale` and `blur` assign the new
instance without freeing the previous one. -/
theorem C3_image_replacement_discipline (c : Canvas) (disk : Disk)
    (mouse : Mouse) (path : String) (fresh : Nat) :
    ((c.change_image disk path fresh).2 =
        [HeapEvent.free_image c.m_image.id, HeapEvent.assign_image fresh] ∧
      (c.change_image disk path fresh).1.m_image.id = fresh) ∧
    ((c.draw_circle disk mouse fresh).2.2 =
        [HeapEvent.free_image c.m_image.id, HeapEvent.assign_image fresh] ∧
      (c.draw_circle disk mouse fresh).1.m_image.id = fresh) ∧
    ((c.to_grayscale fresh).2 = [HeapEvent.assign_image fresh] ∧
      (c.to_grayscale fresh).1.m_image.id = fresh) ∧
    ((c.blur fresh).2 = [HeapEvent.assign_image fresh] ∧
      (c.blur fresh).1.m_image.id = fresh) :=
  ⟨⟨rfl, rfl⟩, ⟨rfl, rfl⟩, ⟨rfl, rfl⟩, ⟨rfl, rfl⟩⟩

/-- C10: `Canvas::to_grayscale` switches the selected program to the
`"monochrome"` entry and leaves the program collection unchanged, while
`blur`, `change_image` and `draw_circle` change neither the selection nor
the collection. -/
theorem C10_grayscale_switches_shader (c : Canvas) (disk : Disk)
    (mouse : Mouse) (path : String) (fresh : Nat) :
    ((c.to_grayscale fresh).1.m_program = "monochrome" ∧
      (c.to_grayscale fresh).1.m_programs = c.m_programs) ∧
    ((c.blur fresh).1.m_program = c.m_program ∧
      (c.blur fresh).1.m_programs = c.m_programs) ∧
    ((c.change_image disk path fresh).1.m_program = c.m_program ∧
      (c.change_image disk path fresh).1.m_programs = c.m_programs) ∧
    ((c.draw_circle disk mouse fresh).1.m_program = c.m_program ∧
      (c.draw_circle disk mouse fresh).1.m_programs = c.m_programs) :=
  ⟨⟨rfl, rfl⟩, ⟨rfl, rfl⟩, ⟨rfl, rfl⟩, ⟨rfl, rfl⟩⟩

/-- C4: `Canvas::use_shader` first copies the two GPU resource ids
(selected program id, bound texture id) into the static slot — storage that
outlives the current stack frame — and then appends the deferred-draw
callback to the frame's draw command list; the callback, run on nothing but
the slot and the current viewport size, reconstructs handles from exactly
those two ids and issues the draw with the screen-space orthographic
transform of the viewport. -/
theorem C4_callback_relay (c : Canvas) (f : FrameState) (w h : ℚ) :
    (c.use_shader f).callback_data = (c.selected_program_id, c.m_texture.id) ∧
    (c.use_shader f).draw_list = f.draw_list ++ [DrawCmd.callback_custom_shader] ∧
    (Canvas.draw_with_custom_shader (c.use_shader f).callback_data (w, h)).program_used =
      c.selected_program_id ∧
    (Canvas.draw_with_custom_shader (c.use_shader f).callback_data (w, h)).texture_used =
      c.m_texture.id ∧
    (Canvas.draw_with_custom_shader (c.use_shader f).callback_data (w, h)).transformation =
      glmOrtho 0 w h 0 := by
  refine ⟨rfl, rfl, rfl, rfl, ?_⟩
  show glmOrtho 0 w h 0 * 1 * 1 = glmOrtho 0 w h 0
  rw [mul_one, mul_one]

/-- C5: the deferred-draw storage is a single process-wide slot: writing it
a second time before the first pending callback runs replaces the slot's
contents with the second payload, so the first payload is lost and both
pending callbacks issue their draw from the second payload. -/
theorem C5_single_slot_overwrite (c1 c2 : Canvas) (f : FrameState) (w h : ℚ)
    (hne : (c1.selected_program_id, c1.m_texture.id) ≠
      (c2.selected_program_id, c2.m_texture.id)) :
    (c2.use_shader (c1.use_shader f)).callback_data =
      (c2.selected_program_id, c2.m_texture.id) ∧
    (c2.use_shader (c1.use_shader f)).callback_data ≠
      (c1.selected_program_id, c1.m_texture.id) ∧
    (c2.use_shader (c1.use_shader f)).draw_list =
      f.draw_list ++ [DrawCmd.callback_custom_shader, DrawCmd.callback_custom_shader] ∧
    (Canvas.draw_with_custom_shader
        (c2.use_shader (c1.use_shader f)).callback_data (w, h)).program_used =
      c2.selected_program_id ∧
    (Canvas.draw_with_custom_shader
        (c2.use_shader (c1.use_shader f)).callback_data (w, h)).texture_used =
      c2.m_texture.id := by
  refine ⟨rfl, fun hh => hne hh.symm, ?_, rfl, rfl⟩
  simp [Canvas.use_shader]

/-- A second concrete canvas sharing the image of `canvas0` but bound to a
different GL texture. -/
def canvas1 : Canvas :=
  { canvas0 with m_texture := { id := 8, image := canvas0.m_image } }

/-- An empty frame. -/
def frame0 : FrameState := { callback_data := (0, 0), draw_list := [] }

theorem C5_single_slot_overwrite_witness :
    ((canvas0.selected_program_id, canvas0.m_texture.id) ≠
      (canvas1.selected_program_id, canvas1.m_texture.id)) ∧
    ((canvas1.use_shader (canvas0.use_shader frame0)).callback_data =
        (canvas1.selected_program_id, canvas1.m_texture.id) ∧
      (canvas1.use_shader (canvas0.use_shader frame0)).callback_data ≠
        (canvas0.selected_program_id, canvas0.m_texture.id) ∧
      (canvas1.use_shader (canvas0.use_shader frame0)).draw_list =
        frame0.draw_list ++
          [DrawCmd.callback_custom_shader, DrawCmd.callback_custom_shader] ∧
      (Canvas.draw_with_custom_shader
          (canvas1.use_shader (canvas0.use_shader frame0)).callback_data
          (640, 480)).program_used = canvas1.selected_program_id ∧
      (Canvas.draw_with_custom_shader
          (canvas1.use_shader (canvas0.use_shader frame0)).callback_data
          (640, 480)).texture_used = canvas1.m_texture.id) :=
  ⟨by decide, C5_single_slot_overwrite canvas0 canvas1 frame0 640 480 (by decide)⟩

/-- Halving an exactly doubled quantum count is exact. -/
theorem roundHalfToEven_double (m : ℤ) : roundHalfToEven (2 * m) = m := by
  unfold roundHalfToEven
  rw [if_pos (show (2 * m) % 2 = 0 by omega)]
  omega

/-- As long as the result stays below the overflow threshold, iterated
binary32 doubling is exact. -/
theorem mul2_iter_no_overflow (k : ℤ) (n : ℕ)
    (h : |k| * 2 ^ n < f32OverflowQuanta) :
    Float32.mul2^[n] (Float32.finite k) = Float32.finite (k * 2 ^ n) := by
  induction n generalizing k with
  | zero => simp
  | succ n ih =>
      have hone : (1 : ℤ) ≤ 2 ^ n := by
        have := pow_pos (show (0 : ℤ) < 2 by norm_num) n
        omega
      have habs : |2 * k| * 2 ^ n = |k| * 2 ^ (n + 1) := by
        rw [abs_mul, abs_two]
        ring
      have h2 : |2 * k| * 2 ^ n < f32OverflowQuanta := by rw [habs]; exact h
      have hlt : |2 * k| < f32OverflowQuanta :=
        lt_of_le_of_lt (le_mul_of_one_le_right (abs_nonneg _) hone) h2
      have hbound := abs_lt.mp hlt
      have hstep : Float32.mul2 (Float32.finite k) = Float32.finite (2 * k) := by
        show (if f32OverflowQuanta ≤ 2 * k then Float32.pos_inf
          else if 2 * k ≤ -f32OverflowQuanta then Float32.neg_inf
          else Float32.finite (2 * k)) = Float32.finite (2 * k)
        rw [if_neg (by omega), if_neg (by omega)]
      rw [Function.iterate_succ_apply, hstep, ih (2 * k) h2]
      congr 1
      ring

/-- Iterated binary32 halving exactly undoes an exact iterated doubling. -/
theorem div2_iter_double (k : ℤ) (n : ℕ) :
    Float32.div2^[n] (Float32.finite (k * 2 ^ n)) = Float32.finite k := by
  induction n generalizing k with
  | zero => simp
  | succ n ih =>
      have hstep : Float32.div2 (Float32.finite (k * 2 ^ (n + 1))) =
          Float32.finite (k * 2 ^ n) := by
        show Float32.finite (roundHalfToEven (k * 2 ^ (n + 1))) =
          Float32.finite (k * 2 ^ n)
        rw [show k * 2 ^ (n + 1) = 2 * (k * 2 ^ n) by ring, roundHalfToEven_double]
      rw [Function.iterate_succ_apply, hstep, ih]

/-- Iterated `Canvas::zoom_in` acts on `m_zoom` by iterated doubling. -/
theorem zoom_in_iter_m_zoom (c : Canvas) (n : ℕ) :
    (Canvas.zoom_in^[n] c).m_zoom = Float32.mul2^[n] c.m_zoom := by
  induction n generalizing c with
  | zero => rfl
  | succ n ih =>
      rw [Function.iterate_succ_apply, Function.iterate_succ_apply, ih]
      rfl

/-- Iterated `Canvas::zoom_out` acts on `m_zoom` by iterated halving. -/
theorem zoom_out_iter_m_zoom (c : Canvas) (n : ℕ) :
    (Canvas.zoom_out^[n] c).m_zoom = Float32.div2^[n] c.m_zoom := by
  induction n generalizing c with
  | zero => rfl
  | succ n ih =>
      rw [Function.iterate_succ_apply, Function.iterate_succ_apply, ih]
      rfl

set_option maxRecDepth 8000 in
/-- C6 counterexample: from the program's actual initial zoom `1.0f`, 128
`zoom_in` calls overflow the binary32 zoom to `+inf` (since `2 ^ 128 >
FLT_MAX`), and 128 `zoom_out` calls leave it at `+inf`, so the original
scale factor is not restored. -/
theorem C6_zoom_overflow_counterexample :
    canvas0.m_zoom = f32One ∧
    (Canvas.zoom_out^[128] (Canvas.zoom_in^[128] canvas0)).m_zoom =
      Float32.pos_inf ∧
    (Canvas.zoom_out^[128] (Canvas.zoom_in^[128] canvas0)).m_zoom ≠
      canvas0.m_zoom := by
  refine ⟨rfl, by decide, by decide⟩

/-- C6 amended: for every starting finite zoom factor and every `n` such
that no doubling reaches the binary32 overflow threshold, `n` calls to
`Canvas::zoom_in` followed by `n` calls to `Canvas::zoom_out` restore the
displayed scale factor exactly; once a doubling overflows, the zoom
saturates at infinity and the original factor is lost. -/
theorem C6_zoom_roundtrip (c : Canvas) (k : ℤ) (n : ℕ)
    (hk : c.m_zoom = Float32.finite k)
    (hov : |k| * 2 ^ n < f32OverflowQuanta) :
    (Canvas.zoom_out^[n] (Canvas.zoom_in^[n] c)).m_zoom = c.m_zoom := by
  rw [zoom_out_iter_m_zoom, zoom_in_iter_m_zoom, hk,
    mul2_iter_no_overflow k n hov, div2_iter_double]

set_option maxRecDepth 8000 in
theorem C6_zoom_roundtrip_witness :
    (canvas0.m_zoom = Float32.finite (2 ^ 149) ∧
      |(2 ^ 149 : ℤ)| * 2 ^ 3 < f32OverflowQuanta) ∧
    (Canvas.zoom_out^[3] (Canvas.zoom_in^[3] canvas0)).m_zoom = canvas0.m_zoom :=
  ⟨⟨rfl, by decide⟩, C6_zoom_roundtrip canvas0 (2 ^ 149) 3 rfl (by decide)⟩

/-- Averaging over chunks of one sample is the identity. -/
theorem avgChunks_one (l : List Nat) : avgChunks 1 l = l := by
  induction l with
  | nil => simp [avgChunks]
  | cons x xs ih => simp [avgChunks, ih]

/-- C7: grayscale conversion is idempotent — re-applying
`Canvas::to_grayscale` leaves the pixel buffer produced by the first
application unchanged (the first application yields a single-channel image,
and averaging a single channel is the identity). -/
theorem C7_grayscale_idempotent (c : Canvas) (f1 f2 : Nat) :
    ((c.to_grayscale f1).1.to_grayscale f2).1.m_image.pixels =
      (c.to_grayscale f1).1.m_image.pixels := by
  show (ImageUtils.to_grayscale (ImageUtils.to_grayscale c.m_image f1) f2).pixels =
    (ImageUtils.to_grayscale c.m_image f1).pixels
  simp [ImageUtils.to_grayscale, avgChunks_one]

/-- A concrete dialog state with a pending quit command. -/
def dialog_state0 : DialogState :=
  { flags := { open_image := false, quit_app := true, to_gray := false },
    m_image := Image.load disk0 "./assets/images/grass_logo.png" 0,
    m_texture := { id := 5, image := Image.load disk0 "./assets/images/grass_logo.png" 0 },
    m_program := prog_color,
    window_open := true,
    file_dialog_open := false }

/-- A concrete frame with no file-dialog activity and no menu clicks. -/
def menu_input0 : MenuInput :=
  { display_file_dialog := false, file_dialog_ok := false, file_path := "",
    click_open := false, click_quit := false, click_gray := false }

/-- C8 counterexample: the `quit_app` flag of `Dialog::render_menu` is
consumed (the window is closed) but never cleared back to `false` — after
the frame it is still set. -/
theorem C8_quit_flag_not_cleared_counterexample :
    dialog_state0.flags.quit_app = true ∧
    (Dialog.render_menu dialog_state0 menu_input0 disk0 1 2).window_open = false ∧
    (Dialog.render_menu dialog_state0 menu_input0 disk0 1 2).flags.quit_app = true := by
  decide

/-- C8 amended: the command flags with a visible consumer follow
reset-on-consumption except `quit_app`: after one `Dialog::render_menu`
frame in which the menu items are not clicked, `open_image` and `to_gray`
are `false` (cleared whether or not they were consumed this frame), while
`quit_app` survives its own consumption — it is only ever changed by the
menu-item toggle — and a set `quit_app` closes the window.  On the canvas
side, `Canvas::draw_circle` consumes the pending `Mouse::click_mode`
command and resets it to `NONE`. -/
theorem C8_flag_lifecycle (s : DialogState) (inp : MenuInput) (disk : Disk)
    (fo fg : Nat) (c : Canvas) (mouse : Mouse) (fresh : Nat)
    (hopen : inp.click_open = false) (hgray : inp.click_gray = false) :
    (Dialog.render_menu s inp disk fo fg).flags.open_image = false ∧
    (Dialog.render_menu s inp disk fo fg).flags.to_gray = false ∧
    (Dialog.render_menu s inp disk fo fg).flags.quit_app =
      xor s.flags.quit_app inp.click_quit ∧
    (s.flags.quit_app = true →
      (Dialog.render_menu s inp disk fo fg).window_open = false) ∧
    (c.draw_circle disk mouse fresh).2.1.click_mode = ClickMode.NONE := by
  obtain ⟨⟨o, q, g⟩, img, tex, prog, w, fd⟩ := s
  obtain ⟨d, ok, path, co, cq, cg⟩ := inp
  simp only at hopen hgray
  subst hopen hgray
  refine ⟨?_, ?_, ?_, ?_, rfl⟩ <;>
    cases o <;> cases q <;> cases g <;> cases d <;> cases ok <;>
      simp [Dialog.render_menu]

theorem C8_flag_lifecycle_witness :
    (menu_input0.click_open = false ∧ menu_input0.click_gray = false) ∧
    ((Dialog.render_menu dialog_state0 menu_input0 disk0 1 2).flags.open_image = false ∧
      (Dialog.render_menu dialog_state0 menu_input0 disk0 1 2).flags.to_gray = false ∧
      (Dialog.render_menu dialog_state0 menu_input0 disk0 1 2).flags.quit_app =
        xor dialog_state0.flags.quit_app menu_input0.click_quit ∧
      (dialog_state0.flags.quit_app = true →
        (Dialog.render_menu dialog_state0 menu_input0 disk0 1 2).window_open = false) ∧
      (canvas0.draw_circle disk0 mouse0 3).2.1.click_mode = ClickMode.NONE) :=
  ⟨⟨rfl, rfl⟩,
    C8_flag_lifecycle dialog_state0 menu_input0 disk0 1 2 canvas0 mouse0 3 rfl rfl⟩

/-- The C9 invariant: the program collection is the three-entry collection
built at construction, and the selected-program pointer addresses a live
entry of it. -/
def programsInv (color grayscale monochrome : Program) (c : Canvas) : Prop :=
  c.m_programs = mkPrograms color grayscale monochrome ∧
  (lookupProgram c.m_programs c.m_program).isSome = true

/-- Every `Canvas` member call preserves the C9 invariant: no call touches
the collection, `set_shader` moves the pointer only onto a key it just
found (and leaves it in place when `at` throws), and `to_grayscale` moves
it onto the `"monochrome"` entry, which the collection always holds. -/
theorem step_preserves_programsInv (color grayscale monochrome : Program)
    (disk : Disk) (mouse : Mouse) (c : Canvas) (op : CanvasOp)
    (h : programsInv color grayscale monochrome c) :
    programsInv color grayscale monochrome (c.step disk mouse op) := by
  obtain ⟨hp, hs⟩ := h
  cases op with
  | set_shader key =>
      simp only [Canvas.step, Canvas.set_shader]
      cases hk : lookupProgram c.m_programs key with
      | none => exact ⟨hp, hs⟩
      | some p => exact ⟨hp, by simp [hk]⟩
  | change_image path fresh => exact ⟨hp, hs⟩
  | save_image path => exact ⟨hp, hs⟩
  | to_grayscale fresh =>
      refine ⟨hp, ?_⟩
      show (lookupProgram c.m_programs "monochrome").isSome = true
      rw [hp]
      simp [mkPrograms, lookupProgram]
  | blur fresh => exact ⟨hp, hs⟩
  | draw_circle fresh => exact ⟨hp, hs⟩
  | zoom_in => exact ⟨hp, hs⟩
  | zoom_out => exact ⟨hp, hs⟩

/-- Sequences of member calls preserve the C9 invariant. -/
theorem run_preserves_programsInv (color grayscale monochrome : Program)
    (disk : Disk) (mouse : Mouse) (ops : List CanvasOp) (c : Canvas)
    (h : programsInv color grayscale monochrome c) :
    programsInv color grayscale monochrome (Canvas.run disk mouse c ops) := by
  induction ops generalizing c with
  | nil => exact h
  | cons op ops ih =>
      exact ih _ (step_preserves_programsInv color grayscale monochrome disk mouse c op h)

/-- C9: starting from any successfully constructed canvas, after any
sequence of member calls the selected-program pointer still refers to a
live entry of the program collection — it is never dangling and never
points outside the collection. -/
theorem C9_selected_program_live (disk drun : Disk) (mouse : Mouse)
    (fresh : Nat) (tex_id : GLuint) (color grayscale monochrome : Program)
    (c0 : Canvas) (ops : List CanvasOp)
    (h : Canvas.construct disk fresh tex_id color grayscale monochrome = .ok c0) :
    (lookupProgram (Canvas.run drun mouse c0 ops).m_programs
      (Canvas.run drun mouse c0 ops).m_program).isSome = true := by
  have hinv : programsInv color grayscale monochrome c0 := by
    unfold Canvas.construct at h
    simp only [mkPrograms, lookupProgram, if_pos] at h
    split at h
    · exact absurd h (by simp)
    · obtain rfl := (Except.ok.injEq _ _).mp h
      exact ⟨rfl, by simp [mkPrograms, lookupProgram]⟩
  exact (run_preserves_programsInv color grayscale monochrome drun mouse ops c0 hinv).2

/-- A concrete call sequence exercising every kind of pointer move. -/
def ops9 : List CanvasOp :=
  [.set_shader "grayscale", .zoom_in, .to_grayscale 5, .blur 6,
   .set_shader "color", .change_image "a.png" 7, .draw_circle 8, .zoom_out]

theorem C9_selected_program_live_witness :
    Canvas.construct disk0 0 7 prog_color prog_gray prog_mono = .ok canvas0 ∧
    (lookupProgram (Canvas.run disk0 mouse0 canvas0 ops9).m_programs
      (Canvas.run disk0 mouse0 canvas0 ops9).m_program).isSome = true :=
  ⟨rfl,
    C9_selected_program_live disk0 disk0 mouse0 0 7 prog_color prog_gray prog_mono
      canvas0 ops9 rfl⟩
